import Mathlib

/-!
Shallow embedding of the authorization and token-lifecycle core of
`services/google.go` (package `services`) together with the claims
verified against it.

Modelling conventions:
* `os.Getenv` inputs become explicit string parameters (empty string =
  unset variable, exactly as Go's `os.Getenv` reports an unset variable).
* The filesystem is a map from path to optional file content; `none`
  models a failing `os.Open`.
* `encoding/json` on `oauth2.Token` is modelled by a small JSON value
  type.  The struct tags of `golang.org/x/oauth2.Token` are
  `access_token` (always emitted), `token_type,omitempty`,
  `refresh_token,omitempty`, `expiry,omitempty` (`omitempty` has no
  effect on a struct field such as `time.Time`, so `expiry` is always
  emitted).  A `time.Time` JSON literal (RFC3339Nano text) is abstracted
  by the instant it denotes, as a `Json.num` of nanoseconds since the
  epoch: Go's rendering is injective on instants and its parser is the
  exact inverse on emitted values, which the constructor captures.
* `log.Fatal`/`log.Fatalf` (process termination) is modelled as an
  `Except.error` result.
-/

namespace DocsMCP

/-- JSON values, as far as the token file format needs them.  `num` also
stands for an RFC3339 timestamp literal, represented by the instant it
denotes (nanoseconds since the epoch). -/
inductive Json where
  | null : Json
  | str : String → Json
  | num : Int → Json
  | obj : List (String × Json) → Json

/-- The four fields of `oauth2.Token` that the token file serializes:
`AccessToken`, `TokenType`, `RefreshToken`, `Expiry` (the expiry instant
as nanoseconds since the epoch; `0` is Go's zero time). -/
structure Token where
  accessToken : String
  tokenType : String
  refreshToken : String
  expiry : Int
  deriving DecidableEq, Repr

/-- Field lookup in a decoded JSON object (the encoder never emits
duplicate keys, so first match suffices). -/
def lookupField (k : String) : List (String × Json) → Option Json
  | [] => none
  | (k2, v) :: rest => if k2 = k then some v else lookupField k rest

/-- Decoding a JSON object field into a Go `string` struct field: an
absent key or JSON `null` leaves the zero value `""`; a non-string value
is a decode error (`none`). -/
def getStrField (k : String) (fields : List (String × Json)) : Option String :=
  match lookupField k fields with
  | none => some ""
  | some Json.null => some ""
  | some (Json.str s) => some s
  | some _ => none

/-- Decoding a JSON object field into a Go `time.Time` struct field: an
absent key or JSON `null` leaves the zero time; a timestamp literal
yields its instant; anything else is a decode error. -/
def getTimeField (k : String) (fields : List (String × Json)) : Option Int :=
  match lookupField k fields with
  | none => some 0
  | some Json.null => some 0
  | some (Json.num n) => some n
  | some _ => none

/-- `json.Decoder.Decode` into a fresh `&oauth2.Token{}`: JSON `null`
leaves the zero token, an object fills the tagged fields (unknown keys
ignored, ill-typed known keys are errors), any other document is an
error. -/
def decodeToken : Json → Option Token
  | Json.null => some ⟨"", "", "", 0⟩
  | Json.obj fields =>
    match getStrField "access_token" fields, getStrField "token_type" fields,
          getStrField "refresh_token" fields, getTimeField "expiry" fields with
    | some a, some ty, some r, some e => some ⟨a, ty, r, e⟩
    | _, _, _, _ => none
  | _ => none

/-- `json.Encoder.Encode` of an `oauth2.Token`, following its struct
tags: `access_token` always, `token_type` and `refresh_token` only when
non-empty (`omitempty`), `expiry` always. -/
def encodeToken (t : Token) : Json :=
  Json.obj
    ([("access_token", Json.str t.accessToken)]
      ++ (if t.tokenType = "" then [] else [("token_type", Json.str t.tokenType)])
      ++ (if t.refreshToken = "" then [] else [("refresh_token", Json.str t.refreshToken)])
      ++ [("expiry", Json.num t.expiry)])

/-- Content of a file on disk: either a syntactically valid JSON
document or bytes that fail JSON parsing. -/
inductive FileContent where
  | json : Json → FileContent
  | invalid : String → FileContent

/-- The filesystem visible to the token store: `none` means `os.Open`
fails for that path. -/
def FS : Type := String → Option FileContent

/-- Why `tokenFromFile` failed: `os.Open` failed, or the JSON decode
failed.  Both are surfaced to the caller as an ordinary error value (the
spec's NotFoundError), never fatally. -/
inductive TokenLoadError where
  | openFailed : TokenLoadError
  | decodeFailed : TokenLoadError
  deriving DecidableEq, Repr

/-- Decoding a file's bytes as a token: parse failure or an
incompatible JSON shape is `none`. -/
def contentDecodes : FileContent → Option Token
  | FileContent.json j => decodeToken j
  | FileContent.invalid _ => none

/-- `tokenFromFile` (google.go:382-391): open the file, JSON-decode a
token from it; each failure is returned as an error value. -/
def tokenFromFile (fs : FS) (file : String) : Except TokenLoadError Token :=
  match fs file with
  | none => Except.error TokenLoadError.openFailed
  | some content =>
    match contentDecodes content with
    | none => Except.error TokenLoadError.decodeFailed
    | some tok => Except.ok tok

/-- `saveToken` (google.go:394-414): opens the path with
`O_RDWR|O_CREATE|O_TRUNC` and permission `0600` and writes the JSON
encoding of the token, replacing any previous content. -/
def saveToken (fs : FS) (path : String) (token : Token) : FS :=
  fun p => if p = path then some (FileContent.json (encodeToken token)) else fs p

/-- `AuthConfig` (google.go:23-27). -/
structure AuthConfig where
  credentialsPath : String
  clientSecretsPath : String
  useServiceAccount : Bool
  deriving DecidableEq, Repr

/-- The single fatal outcome of `loadGoogleCredentials`: neither
`GOOGLE_APPLICATION_CREDENTIALS` nor `GOOGLE_CLIENT_SECRETS` is set
(`log.Fatal`, the spec's ConfigurationError). -/
inductive LoadCredError where
  | noCredentialSource : LoadCredError
  deriving DecidableEq, Repr

/-- Result of a successful `loadGoogleCredentials`: the config plus
whether the informational both-sources notice was logged. -/
structure LoadCredResult where
  config : AuthConfig
  loggedBothNotice : Bool
  deriving DecidableEq, Repr

/-- `loadGoogleCredentials` (google.go:132-153).  Inputs are the two
environment strings; the function never touches the filesystem, it only
tests the strings for emptiness. -/
def loadGoogleCredentials (credentialsPath clientSecretsPath : String) :
    Except LoadCredError LoadCredResult :=
  let hasServiceAccount : Bool := credentialsPath ≠ ""
  let hasClientSecrets : Bool := clientSecretsPath ≠ ""
  if !hasServiceAccount && !hasClientSecrets then
    Except.error LoadCredError.noCredentialSource
  else
    Except.ok ⟨⟨credentialsPath, clientSecretsPath, hasServiceAccount⟩,
               hasServiceAccount && hasClientSecrets⟩

/-- Environment variables read by `getHTTPClient` and
`getTokenFromWebWithCallback` (empty string = unset). -/
structure Env where
  googleTokenPath : String
  oauthUseCallback : String
  oauthCallbackPort : String
  deriving DecidableEq, Repr

/-- Token file path resolution inside `getHTTPClient`
(google.go:158-161): `GOOGLE_TOKEN_PATH`, defaulting to `token.json`. -/
def tokenPathOf (env : Env) : String :=
  if env.googleTokenPath = "" then "token.json" else env.googleTokenPath

/-- Which interactive flow `getHTTPClient` selects when no cached token
is usable (google.go:166-171). -/
inductive FlowMode where
  | callback : FlowMode
  | manual : FlowMode
  deriving DecidableEq, Repr

/-- Events of one `getHTTPClient` run, in program order, used to state
ordering guarantees. -/
inductive AuthEvent where
  | loadOk : AuthEvent
  | loadFailed : AuthEvent
  | flowRun : FlowMode → AuthEvent
  | exchangeCompleted : AuthEvent
  | tokenSaved : AuthEvent
  | clientConstructed : AuthEvent
  deriving DecidableEq, Repr

/-- Result of a `getHTTPClient` run: the token the OAuth client is built
from, which interactive flow ran (if any), the filesystem afterwards,
and the event trace in program order. -/
structure HTTPClientResult where
  token : Token
  interactive : Option FlowMode
  fs : FS
  trace : List AuthEvent

/-- `getHTTPClient` (google.go:157-176).  `fresh` is the oracle for the
token the selected interactive flow returns; both Go flows either
return a successfully exchanged token or terminate the process, so on
the interactive path `exchangeCompleted` precedes the return.  The Go
statement order is: `tokenFromFile`; on error run the flow, then
`saveToken`; finally `config.Client(ctx, token)` from which the service
handle is constructed. -/
def getHTTPClient (fs : FS) (env : Env) (fresh : FlowMode → Token) : HTTPClientResult :=
  let path := tokenPathOf env
  match tokenFromFile fs path with
  | Except.ok t =>
    ⟨t, none, fs, [AuthEvent.loadOk, AuthEvent.clientConstructed]⟩
  | Except.error _ =>
    let mode := if env.oauthUseCallback = "true" ∨ env.oauthUseCallback = "1"
                then FlowMode.callback else FlowMode.manual
    let t := fresh mode
    ⟨t, some mode, saveToken fs path t,
      [AuthEvent.loadFailed, AuthEvent.flowRun mode, AuthEvent.exchangeCompleted,
       AuthEvent.tokenSaved, AuthEvent.clientConstructed]⟩

/-- Some occurrence of `a` strictly precedes some occurrence of `b` in
the trace. -/
def occursBefore [DecidableEq α] (a b : α) : List α → Bool
  | [] => false
  | x :: xs => (x = a && xs.contains b) || occursBefore a b xs

/-- Callback port resolution in `getTokenFromWebWithCallback`
(google.go:248-251): `OAUTH_CALLBACK_PORT`, defaulting to `8080`. -/
def callbackPortOf (portEnv : String) : String :=
  if portEnv = "" then "8080" else portEnv

/-- The listener address `getTokenFromWebWithCallback` passes to
`http.Server` (google.go:260-262): `":" + callbackPort`. -/
def listenAddr (portEnv : String) : String :=
  ":" ++ callbackPortOf portEnv

/-- Characters strictly before the last colon of the list (the whole
list when no colon occurs). -/
def beforeLastColon : List Char → List Char
  | [] => []
  | c :: rest =>
    if rest.contains ':' then c :: beforeLastColon rest
    else if c = ':' then [] else c :: rest

/-- The host part of a Go `host:port` listen address (text before the
final colon).  Go's `net.Listen` treats an empty host as "all
interfaces"; loopback-only binding would be host `127.0.0.1`. -/
def addrHost (addr : String) : String :=
  String.mk (beforeLastColon addr.toList)

/-- The single route registered on the callback server
(google.go:269). -/
def callbackRoute : String := "/oauth/callback"

/-- State generation in `getTokenFromWebWithCallback` (google.go:257):
`fmt.Sprintf("state-%d", time.Now().Unix())`, a pure function of the
current Unix second. -/
def generateState (unixSeconds : Int) : String :=
  "state-" ++ toString unixSeconds

/-- An incoming callback request, reduced to the two query parameters
the handler reads; `r.URL.Query().Get` yields `""` for an absent
parameter. -/
structure CallbackRequest where
  state : String
  code : String
  deriving DecidableEq, Repr

/-- What the handler sends on the coordination channels: an error
outcome (`errorChan`) or a code outcome (`codeChan`). -/
inductive Signal where
  | errorSig : String → Signal
  | codeSig : String → Signal
  deriving DecidableEq, Repr

/-- The HTTP response the handler explicitly writes to the browser. -/
structure HttpResponse where
  status : Nat
  contentType : String
  body : String
  deriving DecidableEq, Repr

/-- Outcome of one handler invocation: the signal sent, and the
response explicitly written (`none` when the handler returns without
writing). -/
structure HandlerResult where
  signal : Signal
  response : Option HttpResponse
  deriving DecidableEq, Repr

/-- The static confirmation page the handler writes on success
(google.go:286-302). -/
def successHTML : String :=
  "\n<!DOCTYPE html>\n<html>\n<head>\n    <title>Authorization Successful</title>\n    <style>\n        body \x7b font-family: Arial, sans-serif; text-align: center; padding: 50px; \x7d\n        .success \x7b color: #4CAF50; font-size: 24px; \x7d\n        .message \x7b color: #666; margin-top: 20px; \x7d\n    </style>\n</head>\n<body>\n    <div class=\"success\">✅ Authorization Successful!</div>\n    <div class=\"message\">You can now close this window and return to your terminal.</div>\n    <div class=\"message\">The server will continue starting up...</div>\n</body>\n</html>"

/-- The callback handler registered by `getTokenFromWebWithCallback`
(google.go:269-306): exact string comparison of the request's `state`
against the attempt's generated state; on mismatch send the error
outcome and return; on missing `code` send the error outcome and
return; otherwise write the 200 HTML confirmation and send the code
outcome. -/
def callbackHandler (attemptState : String) (r : CallbackRequest) : HandlerResult :=
  if r.state ≠ attemptState then
    ⟨Signal.errorSig "invalid state parameter", none⟩
  else if r.code = "" then
    ⟨Signal.errorSig "authorization code not found", none⟩
  else
    ⟨Signal.codeSig r.code, some ⟨200, "text/html", successHTML⟩⟩

/-- Terminal states of one authorization attempt (spec's
AuthorizationState terminals).  `FAILED` covers the error-outcome and
failed-exchange `log.Fatalf` branches; `TIMED_OUT` is the distinct
5-minute-timeout `log.Fatalf` branch. -/
inductive OutcomeKind where
  | AUTHORIZED : OutcomeKind
  | FAILED : OutcomeKind
  | TIMED_OUT : OutcomeKind
  deriving DecidableEq, Repr

/-- Which of the three raced events the `select` (google.go:336-376)
receives first. -/
inductive FirstEvent where
  | codeArrived : String → FirstEvent
  | errArrived : String → FirstEvent
  | timedOut : FirstEvent
  deriving DecidableEq, Repr

/-- Steps a `select` branch performs, in program order. -/
inductive FlowEvent where
  | outcomeResolved : FlowEvent
  | listenerShutdown : Nat → FlowEvent
  | exchangeAttempted : FlowEvent
  deriving DecidableEq, Repr

/-- The hard bound on the three-way wait (google.go:369):
`time.After(5 * time.Minute)`, in seconds. -/
def waitTimeoutSeconds : Nat := 5 * 60

/-- The listener shutdown grace bound used in every branch
(google.go:339, 363, 371): `context.WithTimeout(…, 5*time.Second)`, in
seconds. -/
def shutdownGraceSeconds : Nat := 5

/-- Result of the `select`: the trace of steps, the terminal outcome,
and the token on success. -/
structure SelectResult where
  trace : List FlowEvent
  outcome : OutcomeKind
  token : Option Token
  deriving DecidableEq, Repr

/-- The `select` of `getTokenFromWebWithCallback` (google.go:336-376).
`exchange` is the oracle for `config.Exchange` on the received code.
Each branch first resolves the outcome, then shuts the listener down
with the 5-second grace context; only the code branch then attempts the
exchange (`log.Fatalf` on exchange error is the `FAILED` outcome). -/
def selectOnEvent (exchange : String → Except String Token) (ev : FirstEvent) : SelectResult :=
  match ev with
  | FirstEvent.codeArrived c =>
    match exchange c with
    | Except.ok t =>
      ⟨[FlowEvent.outcomeResolved, FlowEvent.listenerShutdown shutdownGraceSeconds,
        FlowEvent.exchangeAttempted], OutcomeKind.AUTHORIZED, some t⟩
    | Except.error _ =>
      ⟨[FlowEvent.outcomeResolved, FlowEvent.listenerShutdown shutdownGraceSeconds,
        FlowEvent.exchangeAttempted], OutcomeKind.FAILED, none⟩
  | FirstEvent.errArrived _ =>
    ⟨[FlowEvent.outcomeResolved, FlowEvent.listenerShutdown shutdownGraceSeconds],
      OutcomeKind.FAILED, none⟩
  | FirstEvent.timedOut =>
    ⟨[FlowEvent.outcomeResolved, FlowEvent.listenerShutdown shutdownGraceSeconds],
      OutcomeKind.TIMED_OUT, none⟩

/-- When the three-way wait resolves, given the arrival times (seconds
since the wait began) of a code outcome and an error outcome, if any:
the earliest of the arrivals and the 5-minute timeout. -/
def resolveAt (codeArrival errArrival : Option Nat) : Nat :=
  min (min (codeArrival.getD waitTimeoutSeconds) (errArrival.getD waitTimeoutSeconds))
      waitTimeoutSeconds

/-- The state of a `sync.OnceValue` cell: the memoized value if the
function already ran, and how many times the construction function has
executed. -/
structure OnceCell (V : Type) where
  cache : Option V
  constructions : Nat

/-- One call to the function returned by `sync.OnceValue f`.
`sync.Once` serializes racing first callers on an internal mutex and
blocks them until the single execution of `f` completes, so each call
is faithfully modelled as one atomic step against the cell: return the
memoized value, or run `f` once and memoize. -/
def onceValueCall (f : Unit → V) (s : OnceCell V) : V × OnceCell V :=
  match s.cache with
  | some v => (v, s)
  | none => (f (), ⟨some (f ()), s.constructions + 1⟩)

/-- A sequence of `n` calls (from any callers, in the serialization
order `sync.Once` enforces) starting from the fresh cell: the list of
values the callers observe and the final cell state. -/
def runCalls (f : Unit → V) : Nat → List V × OnceCell V
  | 0 => ([], ⟨none, 0⟩)
  | n + 1 =>
    let p := runCalls f n
    let q := onceValueCall f p.2
    (p.1 ++ [q.1], q.2)

/-- The body of the `sync.OnceValue` closure bound to `GoogleDocsClient`
(google.go:30-79), abstracted over how a handle is built from the
resolved credential outcome: the expensive path always begins with
`loadGoogleCredentials`. -/
def googleDocsClientBody (credEnv secretsEnv : String)
    (handleOf : Except LoadCredError LoadCredResult → H) : Unit → H :=
  fun _ => handleOf (loadGoogleCredentials credEnv secretsEnv)

/-- `GoogleDocsClient` (google.go:30): `sync.OnceValue` applied to the
construction closure, observed through `n` serialized calls.
`GoogleDriveClient` (google.go:82) is the identical pattern with a
different handle builder, so it is covered by the same `handleOf`
abstraction. -/
def GoogleDocsClient (credEnv secretsEnv : String)
    (handleOf : Except LoadCredError LoadCredResult → H) (n : Nat) :
    List H × OnceCell H :=
  runCalls (googleDocsClientBody credEnv secretsEnv handleOf) n

/-- Sample token used by witnesses. -/
def sampleToken : Token := ⟨"ya29.sample", "Bearer", "1//refresh-sample", 1000000000⟩

/-- Sample token whose expiry instant is already in the past. -/
def expiredToken : Token := ⟨"ya29.old", "Bearer", "1//refresh-old", 5⟩

/-- Filesystem on which every open fails. -/
def emptyFS : FS := fun _ => none

/-- Filesystem holding exactly one saved token. -/
def fsWith (path : String) (t : Token) : FS := saveToken emptyFS path t

/-- Default environment: no variable set. -/
def defaultEnv : Env := ⟨"", "", ""⟩

/-- Interactive-flow oracle used by witnesses. -/
def freshOracle : FlowMode → Token := fun _ => sampleToken

/-- Exchange oracle used by witnesses. -/
def exchangeOracle : String → Except String Token := fun _ => Except.ok sampleToken

/-- One callback-mode authorization attempt, identified by `id`, with
the Unix second at which `getTokenFromWebWithCallback` read
`time.Now().Unix()`.  Distinct attempts may start within the same
second. -/
structure Attempt where
  id : Nat
  startSecond : Int
  deriving DecidableEq, Repr

/-- The state value an attempt generates (google.go:257): the generator
reads nothing of the attempt but its start second. -/
def stateOf (a : Attempt) : String := generateState a.startSecond

/-- JSON encoding then decoding restores every token field: the decoder
inverts the encoder, including the `omitempty` cases. -/
theorem decodeToken_encodeToken (t : Token) : decodeToken (encodeToken t) = some t := by
  obtain ⟨a, ty, r, e⟩ := t
  by_cases hty : ty = "" <;> by_cases hr : r = "" <;>
    simp [encodeToken, decodeToken, getStrField, getTimeField, lookupField, hty, hr]

/-- C4: for every token `t`, filesystem and path, `saveToken path t`
followed by `tokenFromFile path` succeeds and yields a token equal to
`t` in every field (access value, refresh value, expiry, token type). -/
theorem saveToken_tokenFromFile_roundtrip (fs : FS) (path : String) (t : Token) :
    tokenFromFile (saveToken fs path t) path = Except.ok t := by
  simp [tokenFromFile, saveToken, contentDecodes, decodeToken_encodeToken]

/-- C8: `loadGoogleCredentials` fails (fatally, with the spec's
ConfigurationError) exactly when both configured location strings are
empty; when both are non-empty it logs the informational notice and
deterministically selects service-account mode.  It is a pure function
of the two strings, so it reads no filesystem contents. -/
theorem loadGoogleCredentials_spec (c s : String) :
    (loadGoogleCredentials c s = Except.error LoadCredError.noCredentialSource
      ↔ (c = "" ∧ s = ""))
    ∧ (c ≠ "" → s ≠ "" →
        loadGoogleCredentials c s = Except.ok ⟨⟨c, s, true⟩, true⟩) := by
  constructor
  · by_cases hc : c = "" <;> by_cases hs : s = "" <;>
      simp [loadGoogleCredentials, hc, hs]
  · intro hc hs
    simp [loadGoogleCredentials, hc, hs]

/-- C8 witness: both sources configured selects service-account mode
with the notice logged; the concrete fatal case is in the iff. -/
theorem loadGoogleCredentials_spec_witness :
    loadGoogleCredentials "sa.json" "secrets.json" =
      Except.ok ⟨⟨"sa.json", "secrets.json", true⟩, true⟩ :=
  (loadGoogleCredentials_spec "sa.json" "secrets.json").2 (by decide) (by decide)

/-- C2: the interactive flow runs if and only if the token load fails,
the load fails exactly when opening the file or decoding its JSON
fails (surfaced as an ordinary error value, never fatally), and for
every successfully loaded cached token the handle is built from that
token with no interactive flow. -/
theorem interactive_flow_iff_load_fails (fs : FS) (env : Env) (fresh : FlowMode → Token) :
    ((getHTTPClient fs env fresh).interactive ≠ none
      ↔ ∃ e, tokenFromFile fs (tokenPathOf env) = Except.error e)
    ∧ ((∃ e, tokenFromFile fs (tokenPathOf env) = Except.error e)
      ↔ (fs (tokenPathOf env) = none
          ∨ ∃ c, fs (tokenPathOf env) = some c ∧ contentDecodes c = none))
    ∧ (∀ t, tokenFromFile fs (tokenPathOf env) = Except.ok t →
        (getHTTPClient fs env fresh).interactive = none
        ∧ (getHTTPClient fs env fresh).token = t) := by
  refine ⟨?_, ?_, ?_⟩
  · cases htok : tokenFromFile fs (tokenPathOf env) with
    | ok t => simp [getHTTPClient, htok]
    | error e => simp [getHTTPClient, htok]
  · cases hfile : fs (tokenPathOf env) with
    | none => simp [tokenFromFile, hfile]
    | some c =>
      cases hdec : contentDecodes c with
      | none => simp [tokenFromFile, hfile, hdec]
      | some t => simp [tokenFromFile, hfile, hdec]
  · intro t htok
    simp [getHTTPClient, htok]

/-- C2 witness: a filesystem holding a valid cached token at the
default path yields the cached token with no interactive flow. -/
theorem interactive_flow_iff_load_fails_witness :
    (getHTTPClient (fsWith "token.json" sampleToken) defaultEnv freshOracle).interactive = none
    ∧ (getHTTPClient (fsWith "token.json" sampleToken) defaultEnv freshOracle).token
        = sampleToken :=
  (interactive_flow_iff_load_fails (fsWith "token.json" sampleToken) defaultEnv
    freshOracle).2.2 sampleToken rfl

/-- C10: a cached token is usable purely by parse success: whenever the
token file decodes, the handle is built from the decoded token and no
interactive flow runs, even when the token's expiry instant is already
in the past — no clock is consulted on the load path. -/
theorem parse_success_suffices (fs : FS) (env : Env) (fresh : FlowMode → Token)
    (t : Token) (htok : tokenFromFile fs (tokenPathOf env) = Except.ok t)
    (now : Int) (_hpast : t.expiry < now) :
    (getHTTPClient fs env fresh).interactive = none
    ∧ (getHTTPClient fs env fresh).token = t := by
  simp [getHTTPClient, htok]

/-- C10 witness: a token whose expiry instant `5` is far in the past of
`now = 1000000000` is still loaded and used with no interactive flow. -/
theorem parse_success_suffices_witness :
    (getHTTPClient (fsWith "token.json" expiredToken) defaultEnv freshOracle).interactive = none
    ∧ (getHTTPClient (fsWith "token.json" expiredToken) defaultEnv freshOracle).token
        = expiredToken :=
  parse_success_suffices (fsWith "token.json" expiredToken) defaultEnv freshOracle
    expiredToken rfl 1000000000 (by decide)

/-- C3: for every callback request whose `state` query parameter
differs in any way from the attempt's generated state, the handler
sends the error outcome on the coordination channel, never a code
outcome, and writes nothing to the browser; and the select branch that
receives an error outcome performs no token exchange. -/
theorem state_mismatch_never_code (attemptState : String) (r : CallbackRequest)
    (h : r.state ≠ attemptState) :
    callbackHandler attemptState r = ⟨Signal.errorSig "invalid state parameter", none⟩
    ∧ (∀ c, (callbackHandler attemptState r).signal ≠ Signal.codeSig c)
    ∧ (∀ exchange m, ((selectOnEvent exchange (FirstEvent.errArrived m)).trace.contains
        FlowEvent.exchangeAttempted) = false) := by
  refine ⟨?_, ?_, ?_⟩
  · simp [callbackHandler, h]
  · intro c
    simp [callbackHandler, h]
  · intro exchange m
    simp [selectOnEvent]

/-- C3 witness: a state differing only in letter case is rejected with
the error outcome and no code outcome. -/
theorem state_mismatch_never_code_witness :
    callbackHandler "state-1700000000" ⟨"State-1700000000", "4/abc123"⟩
      = ⟨Signal.errorSig "invalid state parameter", none⟩ :=
  (state_mismatch_never_code "state-1700000000" ⟨"State-1700000000", "4/abc123"⟩
    (by decide)).1

/-- C5 (failing at this input): two distinct attempts started in the
same clock second generate the identical state value, and that value is
the predictable string `state-<unix second>` — the generator is a pure
function of `time.Now().Unix()`, so states are neither unique per
attempt nor unguessable. -/
theorem state_collision_same_second :
    ∃ a1 a2 : Attempt, a1 ≠ a2 ∧ stateOf a1 = stateOf a2
      ∧ stateOf a1 = "state-1700000000" :=
  ⟨⟨0, 1700000000⟩, ⟨1, 1700000000⟩, by decide, rfl, by decide⟩

/-- C9 counterexample: with no port configured the listener address the
code hands to `http.Server` is `":8080"`, whose host part is empty —
Go binds all interfaces for an empty host, not the loopback host
`127.0.0.1` the claim states. -/
theorem listener_binds_all_interfaces :
    listenAddr "" = ":8080" ∧ addrHost (listenAddr "") = ""
      ∧ addrHost (listenAddr "") ≠ "127.0.0.1" := by
  refine ⟨rfl, ?_, ?_⟩ <;> decide

/-- C9 (amended): the listener binds all interfaces on the configured
port (address `":<port>"`), defaulting to port 8080, serves the single
route `/oauth/callback`, and on a request with matching state and
non-empty code responds HTTP 200 `text/html` with the static HTML
confirmation body. -/
theorem callback_listener_contract (portEnv attemptState : String) (r : CallbackRequest)
    (hs : r.state = attemptState) (hc : r.code ≠ "") :
    listenAddr portEnv = ":" ++ callbackPortOf portEnv
    ∧ (portEnv = "" → callbackPortOf portEnv = "8080")
    ∧ callbackRoute = "/oauth/callback"
    ∧ callbackHandler attemptState r
        = ⟨Signal.codeSig r.code, some ⟨200, "text/html", successHTML⟩⟩ := by
  refine ⟨rfl, ?_, rfl, ?_⟩
  · intro hp
    simp [callbackPortOf, hp]
  · simp [callbackHandler, hs, hc]

/-- C9 witness: default port, matching state, code `4/abc123`. -/
theorem callback_listener_contract_witness :
    callbackHandler "state-1700000000" ⟨"state-1700000000", "4/abc123"⟩
      = ⟨Signal.codeSig "4/abc123", some ⟨200, "text/html", successHTML⟩⟩ :=
  (callback_listener_contract "" "state-1700000000" ⟨"state-1700000000", "4/abc123"⟩
    rfl (by decide)).2.2.2

/-- C6: whichever of the three raced outcomes resolves first, the
branch shuts the listener down exactly once, after outcome resolution,
always with the 5-second grace bound; the timeout outcome is reported
as TIMED_OUT, distinct from FAILED; and the wait itself resolves no
later than the 5-minute bound. -/
theorem select_bounded_and_shutdown_once (exchange : String → Except String Token)
    (ev : FirstEvent) :
    ((selectOnEvent exchange ev).trace.count
        (FlowEvent.listenerShutdown shutdownGraceSeconds) = 1)
    ∧ (occursBefore FlowEvent.outcomeResolved
        (FlowEvent.listenerShutdown shutdownGraceSeconds)
        (selectOnEvent exchange ev).trace = true)
    ∧ (∀ g, FlowEvent.listenerShutdown g ∈ (selectOnEvent exchange ev).trace →
        g = shutdownGraceSeconds)
    ∧ (ev = FirstEvent.timedOut →
        (selectOnEvent exchange ev).outcome = OutcomeKind.TIMED_OUT)
    ∧ OutcomeKind.TIMED_OUT ≠ OutcomeKind.FAILED
    ∧ (∀ c e : Option Nat, resolveAt c e ≤ waitTimeoutSeconds)
    ∧ shutdownGraceSeconds = 5 ∧ waitTimeoutSeconds = 5 * 60 := by
  refine ⟨?_, ?_, ?_, ?_, by decide, ?_, rfl, rfl⟩
  · cases ev with
    | codeArrived c => cases hx : exchange c <;> simp [selectOnEvent, hx]
    | errArrived m => rfl
    | timedOut => rfl
  · cases ev with
    | codeArrived c => cases hx : exchange c <;> simp [selectOnEvent, hx, occursBefore]
    | errArrived m => rfl
    | timedOut => rfl
  · intro g hg
    cases ev with
    | codeArrived c =>
      cases hx : exchange c <;> simp [selectOnEvent, hx] at hg <;> exact hg
    | errArrived m => simp [selectOnEvent] at hg; exact hg
    | timedOut => simp [selectOnEvent] at hg; exact hg
  · intro hev
    subst hev
    rfl
  · intro c e
    exact min_le_right _ _

/-- C6 witness: when the 5-minute timeout fires first the outcome is
TIMED_OUT and the branch shuts the listener down exactly once. -/
theorem select_bounded_and_shutdown_once_witness :
    (selectOnEvent exchangeOracle FirstEvent.timedOut).outcome = OutcomeKind.TIMED_OUT :=
  (select_bounded_and_shutdown_once exchangeOracle FirstEvent.timedOut).2.2.2.1 rfl

/-- C7: whenever an interactive flow ran (either mode), the fresh token
is saved after the successful exchange and before the client handle is
constructed, and the filesystem afterwards holds exactly the JSON
encoding of the token the handle is built from. -/
theorem fresh_token_persisted_before_handle (fs : FS) (env : Env)
    (fresh : FlowMode → Token)
    (h : (getHTTPClient fs env fresh).interactive ≠ none) :
    AuthEvent.tokenSaved ∈ (getHTTPClient fs env fresh).trace
    ∧ (occursBefore AuthEvent.exchangeCompleted AuthEvent.tokenSaved
        (getHTTPClient fs env fresh).trace = true)
    ∧ (occursBefore AuthEvent.tokenSaved AuthEvent.clientConstructed
        (getHTTPClient fs env fresh).trace = true)
    ∧ (getHTTPClient fs env fresh).fs (tokenPathOf env)
        = some (FileContent.json (encodeToken (getHTTPClient fs env fresh).token)) := by
  cases htok : tokenFromFile fs (tokenPathOf env) with
  | ok t =>
    exact absurd (by simp [getHTTPClient, htok]) h
  | error e =>
    by_cases hm : env.oauthUseCallback = "true" ∨ env.oauthUseCallback = "1" <;>
      refine ⟨?_, ?_, ?_, ?_⟩ <;>
        simp [getHTTPClient, htok, hm, occursBefore, saveToken]

/-- C7 witness: with no token file present the manual flow runs and the
fresh token is persisted before the handle is constructed. -/
theorem fresh_token_persisted_before_handle_witness :
    AuthEvent.tokenSaved ∈ (getHTTPClient emptyFS defaultEnv freshOracle).trace
    ∧ (occursBefore AuthEvent.exchangeCompleted AuthEvent.tokenSaved
        (getHTTPClient emptyFS defaultEnv freshOracle).trace = true)
    ∧ (occursBefore AuthEvent.tokenSaved AuthEvent.clientConstructed
        (getHTTPClient emptyFS defaultEnv freshOracle).trace = true)
    ∧ (getHTTPClient emptyFS defaultEnv freshOracle).fs (tokenPathOf defaultEnv)
        = some (FileContent.json
            (encodeToken (getHTTPClient emptyFS defaultEnv freshOracle).token)) :=
  fresh_token_persisted_before_handle emptyFS defaultEnv freshOracle (by decide)

/-- Invariant of the memoizing cell over any number of serialized
calls: the construction function has run exactly once as soon as one
call happened, the cell caches its single result, and every caller
observed that result. -/
theorem runCalls_invariant (f : Unit → V) (n : Nat) :
    (runCalls f n).2.cache = (if n = 0 then none else some (f ()))
    ∧ (runCalls f n).2.constructions = (if n = 0 then 0 else 1)
    ∧ ∀ v ∈ (runCalls f n).1, v = f () := by
  induction n with
  | zero => simp [runCalls]
  | succ k ih =>
    obtain ⟨h1, h2, h3⟩ := ih
    by_cases hk : k = 0
    · subst hk
      simp [runCalls, onceValueCall]
    · simp [hk] at h1 h2
      refine ⟨?_, ?_, ?_⟩
      · simp [runCalls, onceValueCall, h1]
      · simp [runCalls, onceValueCall, h1, h2]
      · intro v hv
        simp [runCalls, onceValueCall, h1] at hv
        rcases hv with hv | hv
        · exact h3 v hv
        · exact hv

/-- C1: over any number of serialized calls (the order `sync.Once`
imposes on racing callers), the `sync.OnceValue` cell runs its
construction function at most once — exactly once as soon as any call
happened — every caller observes the identical memoized result, and in
particular every `GoogleDocsClient` caller receives the handle built
from the single run of credential resolution. -/
theorem service_handle_constructed_once {V H : Type} (f : Unit → V)
    (credEnv secretsEnv : String)
    (handleOf : Except LoadCredError LoadCredResult → H) (n : Nat) :
    (runCalls f n).2.constructions ≤ 1
    ∧ (0 < n → (runCalls f n).2.constructions = 1
        ∧ (runCalls f n).2.cache = some (f ()))
    ∧ (∀ v ∈ (runCalls f n).1, v = f ())
    ∧ (∀ v ∈ (GoogleDocsClient credEnv secretsEnv handleOf n).1,
        v = handleOf (loadGoogleCredentials credEnv secretsEnv)) := by
  obtain ⟨h1, h2, h3⟩ := runCalls_invariant f n
  obtain ⟨g1, g2, g3⟩ :=
    runCalls_invariant (googleDocsClientBody credEnv secretsEnv handleOf) n
  refine ⟨?_, ?_, h3, ?_⟩
  · rw [h2]
    by_cases hn : n = 0 <;> simp [hn]
  · intro hn
    have hn0 : ¬ n = 0 := Nat.pos_iff_ne_zero.mp hn
    rw [h1, h2]
    simp [hn0]
  · intro v hv
    exact g3 v hv

/-- C1 witness: three calls on the docs-client cell construct once and
cache the single handle. -/
theorem service_handle_constructed_once_witness :
    (runCalls (fun _ => (42 : Nat)) 3).2.constructions = 1
    ∧ (runCalls (fun _ => (42 : Nat)) 3).2.cache = some 42 :=
  (service_handle_constructed_once (fun _ => (42 : Nat)) "sa.json" ""
    (fun _ => (0 : Nat)) 3).2.1 (by decide)

end DocsMCP
